import Mathlib

/-!
Verification of the serverless request gateway of the
segese-medical-clinic-fullstack repository (the single Express entry file).

The embedding translates the gateway source:
  * the process-wide connection cache (`cachedDb` / `connectToDatabase`),
  * the middleware pipeline (CORS preflight short-circuit, parameter-pollution
    guard, connection-gate middleware),
  * the inline health endpoint, the static route table, and the
    catch-all 404 responder.

External npm middleware (cors, hpp) and the ECMAScript Date built-in are not
part of the repository source; where a claim depends on their behaviour the
definition carries a doc comment saying so and follows the spec's words.
-/

set_option autoImplicit false

/-- Options object passed to the underlying connect primitive
(`mongoose.connect(uri, {...})`, gateway source lines 62-68). -/
structure ConnectOptions where
  useNewUrlParser : Bool
  useUnifiedTopology : Bool
  maxPoolSize : Nat
  serverSelectionTimeoutMS : Nat
  socketTimeoutMS : Nat
deriving Repr, DecidableEq

/-- The literal options object the gateway builds on every new connection
attempt (source lines 63-67). -/
def connectOptions : ConnectOptions :=
  { useNewUrlParser := true
    useUnifiedTopology := true
    maxPoolSize := 10
    serverSelectionTimeoutMS := 5000
    socketTimeoutMS := 45000 }

/-- Process-wide connection state: the module-level `cachedDb` variable
(source line 51, an opaque handle modelled as `Option Nat`) together with
`mongoose.connection.readyState` (a small integer; 1 means connected). -/
structure ConnState where
  cachedDb : Option Nat
  readyState : Nat
deriving Repr, DecidableEq

/-- Outcome the environment has in store for the next `mongoose.connect`
call, should one be made: the awaited promise either resolves with a handle
or rejects with an error message. -/
inductive ConnectOutcome where
  | success (db : Nat)
  | failure (msg : String)
deriving Repr, DecidableEq

/-- What one call of `connectToDatabase` produced: the returned value or the
propagated error, the connection state afterwards, how many times the
underlying connect primitive was invoked, and the options object passed to
each such invocation. -/
structure ConnectResult where
  result : Except String Nat
  state : ConnState
  attempts : Nat
  optionsUsed : List ConnectOptions
deriving Repr

/-- `connectToDatabase` (source lines 53-77).  Fast path: if `cachedDb` is
set and `mongoose.connection.readyState === 1`, return the cached handle with
no I/O.  Otherwise call `mongoose.connect` once with `connectOptions`; on
success cache the handle (`cachedDb = db`, readyState becomes 1) and return
it, on failure rethrow the error leaving `cachedDb` untouched (the
`cachedDb = db` assignment on line 70 is only reached after a successful
await). -/
def connectToDatabase (o : ConnectOutcome) (s : ConnState) : ConnectResult :=
  if s.cachedDb.isSome ∧ s.readyState = 1 then
    { result := Except.ok (s.cachedDb.getD 0)
      state := s
      attempts := 0
      optionsUsed := [] }
  else
    match o with
    | ConnectOutcome.success db =>
        { result := Except.ok db
          state := { cachedDb := some db, readyState := 1 }
          attempts := 1
          optionsUsed := [connectOptions] }
    | ConnectOutcome.failure m =>
        { result := Except.error m
          state := s
          attempts := 1
          optionsUsed := [connectOptions] }

/-- Claim C3: with a cached handle in the Connected state, `connectToDatabase`
returns the cached handle with zero connection attempts, leaves the state
unchanged, a second sequential call again makes zero attempts, and a cold
call followed by a warm call makes exactly one attempt in total. -/
theorem connectToDatabase_idempotent_when_connected
    (s : ConnState) (db : Nat) (o o2 : ConnectOutcome)
    (hdb : s.cachedDb = some db) (hrs : s.readyState = 1) :
    (connectToDatabase o s).result = Except.ok db ∧
    (connectToDatabase o s).state = s ∧
    (connectToDatabase o s).attempts = 0 ∧
    (connectToDatabase o2 (connectToDatabase o s).state).attempts = 0 ∧
    (∀ d : Nat,
      (connectToDatabase (ConnectOutcome.success d) ⟨none, 0⟩).attempts +
      (connectToDatabase o2
        (connectToDatabase (ConnectOutcome.success d) ⟨none, 0⟩).state).attempts = 1) := by
  refine ⟨?_, ?_, ?_, ?_, ?_⟩
  · simp [connectToDatabase, hdb, hrs]
  · simp [connectToDatabase, hdb, hrs]
  · simp [connectToDatabase, hdb, hrs]
  · simp [connectToDatabase, hdb, hrs]
  · intro d
    simp [connectToDatabase]

/-- Witness for C3 at a concrete cached-and-connected state. -/
theorem connectToDatabase_idempotent_when_connected_witness :
    (connectToDatabase (ConnectOutcome.failure "down") ⟨some 7, 1⟩).result =
      Except.ok 7 ∧
    (connectToDatabase (ConnectOutcome.failure "down") ⟨some 7, 1⟩).attempts = 0 := by
  have h := connectToDatabase_idempotent_when_connected ⟨some 7, 1⟩ 7
    (ConnectOutcome.failure "down") (ConnectOutcome.failure "down") rfl rfl
  exact ⟨h.1, h.2.2.1⟩

/-- Claim C4: when the fast path does not apply and the connection attempt
rejects, `connectToDatabase` propagates the error, leaves `cachedDb` (indeed
the whole state) unchanged, and a subsequent call from that state makes a
fresh connection attempt. -/
theorem connectToDatabase_failure_leaves_cache
    (s : ConnState) (m : String) (o2 : ConnectOutcome)
    (hcold : ¬ (s.cachedDb.isSome ∧ s.readyState = 1)) :
    (connectToDatabase (ConnectOutcome.failure m) s).result = Except.error m ∧
    (connectToDatabase (ConnectOutcome.failure m) s).state.cachedDb = s.cachedDb ∧
    (connectToDatabase (ConnectOutcome.failure m) s).state = s ∧
    (connectToDatabase o2
      (connectToDatabase (ConnectOutcome.failure m) s).state).attempts = 1 := by
  refine ⟨?_, ?_, ?_, ?_⟩ <;>
    simp only [connectToDatabase, if_neg hcold]
  cases o2 <;> rfl

/-- Witness for C4 at the empty cold state. -/
theorem connectToDatabase_failure_leaves_cache_witness :
    (connectToDatabase (ConnectOutcome.failure "boom") ⟨none, 0⟩).result =
      Except.error "boom" ∧
    (connectToDatabase (ConnectOutcome.failure "boom") ⟨none, 0⟩).state.cachedDb =
      none := by
  have h := connectToDatabase_failure_leaves_cache ⟨none, 0⟩ "boom"
    (ConnectOutcome.failure "boom") (by simp)
  exact ⟨h.1, h.2.1⟩

/-- Claim C7: every options object handed to the underlying connect primitive
by `connectToDatabase` carries a server-selection (connect) timeout of
5000 ms and a socket/idle timeout of 45000 ms. -/
theorem connectToDatabase_timeouts
    (o : ConnectOutcome) (s : ConnState) (opt : ConnectOptions)
    (h : opt ∈ (connectToDatabase o s).optionsUsed) :
    opt.serverSelectionTimeoutMS = 5000 ∧ opt.socketTimeoutMS = 45000 := by
  unfold connectToDatabase at h
  split at h
  · simp at h
  · cases o with
    | success db =>
        simp only [List.mem_singleton] at h
        subst h; exact ⟨rfl, rfl⟩
    | failure m =>
        simp only [List.mem_singleton] at h
        subst h; exact ⟨rfl, rfl⟩

/-- Witness for C7 on a concrete cold connection attempt. -/
theorem connectToDatabase_timeouts_witness :
    connectOptions ∈
      (connectToDatabase (ConnectOutcome.success 3) ⟨none, 0⟩).optionsUsed ∧
    connectOptions.serverSelectionTimeoutMS = 5000 ∧
    connectOptions.socketTimeoutMS = 45000 := by
  refine ⟨by simp [connectToDatabase], ?_⟩
  exact connectToDatabase_timeouts (ConnectOutcome.success 3) ⟨none, 0⟩
    connectOptions (by simp [connectToDatabase])

/-- Field access in a JSON-object body modelled as an association list:
the value of the first field carrying the given key (JSON objects produced
by the gateway never repeat a key). -/
def getField : List (String × String) → String → Option String
  | [], _ => none
  | (k2, v) :: rest, k => if k2 = k then some v else getField rest k

/-- The value of the last occurrence of key `k` in a raw query list, if any. -/
def lastValue (q : List (String × String)) (k : String) : Option String :=
  ((q.filter fun p => p.1 == k).getLast?).map Prod.snd

/-- Modelled from the spec: the parameter-pollution guard installed by
`app.use(hpp())` (source line 105); the `hpp` package source is not part of
this repository.  Per the spec, when a query parameter appears multiple
times only the last occurrence is retained, and no parameter is whitelisted
in this configuration (`hpp()` is called with no arguments).  A pair is
kept exactly when its key does not occur again later in the list. -/
def hppLast : List (String × String) → List (String × String)
  | [] => []
  | (k, v) :: rest =>
      if rest.any fun p => p.1 == k then hppLast rest
      else (k, v) :: hppLast rest

theorem mem_of_mem_hppLast {x : String × String} :
    ∀ {q : List (String × String)}, x ∈ hppLast q → x ∈ q := by
  intro q
  induction q with
  | nil => intro h; exact absurd h (by simp [hppLast])
  | cons p rest ih =>
      intro h
      rw [hppLast] at h
      split at h
      · exact List.mem_cons_of_mem p (ih h)
      · rcases List.mem_cons.mp h with h | h
        · exact h ▸ List.mem_cons_self _ _
        · exact List.mem_cons_of_mem p (ih h)

theorem getField_hppLast (q : List (String × String)) (k : String) :
    getField (hppLast q) k = lastValue q k := by
  induction q with
  | nil => rfl
  | cons p rest ih =>
      obtain ⟨k2, v⟩ := p
      rw [hppLast]
      by_cases hk : k2 = k
      · subst hk
        by_cases hany : (rest.any fun p => p.1 == k2) = true
        · rw [if_pos hany, ih, lastValue, lastValue,
            List.filter_cons_of_pos (by simp)]
          obtain ⟨w, hw, hwk⟩ := List.any_eq_true.mp hany
          have hne : (rest.filter fun p => p.1 == k2) ≠ [] := by
            intro hnil
            have := List.filter_eq_nil_iff.mp hnil w hw
            exact this hwk
          obtain ⟨y, l, hl⟩ := List.exists_cons_of_ne_nil hne
          rw [hl, List.getLast?_cons_cons]
        · rw [if_neg hany]
          have hfil : (rest.filter fun p => p.1 == k2) = [] := by
            rw [List.filter_eq_nil_iff]
            intro a ha hak
            exact hany (List.any_eq_true.mpr ⟨a, ha, hak⟩)
          rw [getField, if_pos rfl, lastValue,
            List.filter_cons_of_pos (by simp), hfil]
          rfl
      · have hfil : ((k2, v) :: rest).filter (fun p => p.1 == k) =
            rest.filter fun p => p.1 == k := by
          exact List.filter_cons_of_neg (by simp [hk])
        by_cases hany : (rest.any fun p => p.1 == k2) = true
        · rw [if_pos hany, ih, lastValue, lastValue, hfil]
        · rw [if_neg hany, getField, if_neg hk, ih, lastValue, lastValue, hfil]

theorem hppLast_keys_nodup (q : List (String × String)) :
    ((hppLast q).map Prod.fst).Nodup := by
  induction q with
  | nil => simp [hppLast]
  | cons p rest ih =>
      obtain ⟨k2, v⟩ := p
      rw [hppLast]
      split
      · exact ih
      · rename_i hany
        rw [List.map_cons]
        refine List.nodup_cons.mpr ⟨?_, ih⟩
        intro hmem
        obtain ⟨y, hy, hyk⟩ := List.mem_map.mp hmem
        exact hany (List.any_eq_true.mpr
          ⟨y, mem_of_mem_hppLast hy, by simp [hyk]⟩)

/-- Claim C8: after the parameter-pollution guard, looking up any key in the
processed query yields the value of that key's last occurrence in the raw
query (so a duplicated parameter collapses to its last value, there being no
whitelisted parameters), and the processed query holds each key at most
once. -/
theorem hpp_guard_keeps_last_occurrence
    (q : List (String × String)) (k : String) :
    getField (hppLast q) k = lastValue q k ∧
    ((hppLast q).map Prod.fst).Nodup :=
  ⟨getField_hppLast q k, hppLast_keys_nodup q⟩

/-- A UTC instant as the ECMAScript Date built-in decomposes it
(`new Date()` on source line 128): calendar components of the current time. -/
structure JsDate where
  year : Nat
  month : Nat
  day : Nat
  hour : Nat
  minute : Nat
  second : Nat
  ms : Nat
deriving Repr, DecidableEq

/-- The component ranges any real clock reading satisfies. -/
def JsDate.Valid (d : JsDate) : Prop :=
  d.year ≤ 9999 ∧ 1 ≤ d.month ∧ d.month ≤ 12 ∧ 1 ≤ d.day ∧ d.day ≤ 31 ∧
  d.hour ≤ 23 ∧ d.minute ≤ 59 ∧ d.second ≤ 59 ∧ d.ms ≤ 999

instance (d : JsDate) : Decidable d.Valid := by
  unfold JsDate.Valid; infer_instance

/-- The decimal digit character for `n % 10`. -/
def digitChar (n : Nat) : Char := Char.ofNat (48 + n % 10)

/-- Two-digit zero-padded decimal rendering (for components below 100). -/
def pad2 (n : Nat) : List Char := [digitChar (n / 10), digitChar n]

/-- Three-digit zero-padded decimal rendering (for components below 1000). -/
def pad3 (n : Nat) : List Char :=
  [digitChar (n / 100), digitChar (n / 10), digitChar n]

/-- Four-digit zero-padded decimal rendering (for years up to 9999). -/
def pad4 (n : Nat) : List Char :=
  [digitChar (n / 1000), digitChar (n / 100), digitChar (n / 10), digitChar n]

/-- Modelled from the spec: the `new Date().toISOString()` timestamp of the
health payload (source line 128).  The ECMAScript built-in is not repository
source; per ECMA-262 it renders the UTC instant as
`YYYY-MM-DDTHH:mm:ss.sssZ` with zero-padded components (faithful for the
in-range components of `JsDate.Valid`). -/
def toISOString (d : JsDate) : String :=
  String.mk (pad4 d.year ++ '-' :: pad2 d.month ++ '-' :: pad2 d.day ++
    'T' :: pad2 d.hour ++ ':' :: pad2 d.minute ++ ':' :: pad2 d.second ++
    '.' :: pad3 d.ms ++ ['Z'])

/-- Follows the spec's words ("timestamp (ISO-8601)"): the string has the
ISO-8601 UTC shape `YYYY-MM-DDTHH:mm:ss.sssZ` — 24 characters, digits in the
component positions and the fixed separators in between. -/
def isISO8601UTC (s : String) : Bool :=
  match s.toList with
  | [y1, y2, y3, y4, c1, m1, m2, c2, d1, d2, t1, h1, h2, c3, n1, n2, c4,
     s1, s2, c5, f1, f2, f3, z1] =>
      ([y1, y2, y3, y4, m1, m2, d1, d2, h1, h2, n1, n2, s1, s2, f1, f2,
        f3].all Char.isDigit) &&
      c1 == '-' && c2 == '-' && t1 == 'T' && c3 == ':' && c4 == ':' &&
      c5 == '.' && z1 == 'Z'
  | _ => false

theorem isDigit_digitChar (n : Nat) : (digitChar n).isDigit = true := by
  have h : n % 10 < 10 := Nat.mod_lt _ (by norm_num)
  have hall : ∀ r, r < 10 → (Char.ofNat (48 + r)).isDigit = true := by decide
  exact hall (n % 10) h

theorem isISO8601UTC_toISOString (d : JsDate) :
    isISO8601UTC (toISOString d) = true := by
  have h : (toISOString d).toList =
      [digitChar (d.year / 1000), digitChar (d.year / 100),
       digitChar (d.year / 10), digitChar d.year, '-',
       digitChar (d.month / 10), digitChar d.month, '-',
       digitChar (d.day / 10), digitChar d.day, 'T',
       digitChar (d.hour / 10), digitChar d.hour, ':',
       digitChar (d.minute / 10), digitChar d.minute, ':',
       digitChar (d.second / 10), digitChar d.second, '.',
       digitChar (d.ms / 100), digitChar (d.ms / 10), digitChar d.ms,
       'Z'] := rfl
  unfold isISO8601UTC
  rw [h]
  simp [isDigit_digitChar]

/-- An incoming HTTP request as the gateway sees it: method, URL path,
the raw query-string suffix of the URL (empty when absent; Express's
`req.originalUrl` is the path followed by this suffix), and the parsed
query parameters in order of appearance. -/
structure Request where
  method : String
  path : String
  search : String
  query : List (String × String)
deriving Repr, DecidableEq

/-- Express's `req.originalUrl` (used by the 404 handler on source
line 171): the URL as requested, query string included. -/
def originalUrl (req : Request) : String := req.path ++ req.search

/-- Process environment and outside world for one invocation: the
`NODE_ENV` variable (`none` when unset), the current connection state, what
the connect primitive would do if called, and the current clock reading. -/
structure World where
  nodeEnv : Option String
  conn : ConnState
  connectOutcome : ConnectOutcome
  now : JsDate
deriving Repr, DecidableEq

/-- A JSON response: HTTP status code and object body as an ordered field
list (a field whose value is the JavaScript `undefined` is omitted by JSON
serialization, so conditional fields appear only when defined). -/
structure Response where
  status : Nat
  body : List (String × String)
deriving Repr, DecidableEq

/-- Where the pipeline terminated for one request. -/
inductive Outcome where
  /-- Answered by the CORS preflight short-circuit, before every later
  middleware stage. -/
  | preflight (resp : Response)
  /-- Short-circuited by the connection-gate middleware (source
  lines 109-121); no route handler ran. -/
  | gateFailure (resp : Response)
  /-- Answered by the inline health endpoint (source lines 124-132). -/
  | health (resp : Response)
  /-- Delegated to the external route group mounted at the given path
  prefix (source lines 135-165). -/
  | delegated (mount : String)
  /-- Answered by the `/api/*` catch-all 404 handler (source
  lines 168-173). -/
  | notFound (resp : Response)
  /-- Left to Express's default handling (paths outside `/api/`, served by
  a separate static layer). -/
  | unhandled
deriving Repr, DecidableEq

/-- Result of running the gateway pipeline on one request: terminal
outcome, connection state afterwards, number of connect-primitive calls
made, whether the connection-gate middleware ran, and the query list after
the parameter-pollution guard. -/
structure PipelineResult where
  outcome : Outcome
  conn : ConnState
  attempts : Nat
  gateRan : Bool
  processedQuery : List (String × String)
deriving Repr, DecidableEq

/-- Body of the connection-gate failure response (source lines 115-119):
the `error` field carries the raw message only when `NODE_ENV` is exactly
`development`; otherwise it is `undefined` and JSON serialization omits
it. -/
def gateFailureBody (nodeEnv : Option String) (errMsg : String) :
    List (String × String) :=
  [("status", "error"), ("message", "Database connection failed")] ++
    (if nodeEnv = some "development" then [("error", errMsg)] else [])

/-- Body of the health payload (source lines 125-131).  `environment`
defaults to `production` when `NODE_ENV` is unset; `mongoStatus` reports
`connected` exactly when `mongoose.connection.readyState === 1`. -/
def healthBody (nodeEnv : Option String) (now : JsDate) (readyState : Nat) :
    List (String × String) :=
  [("status", "success"),
   ("message", "Hospital Management API is running"),
   ("timestamp", toISOString now),
   ("environment", nodeEnv.getD "production"),
   ("mongoStatus", if readyState = 1 then "connected" else "disconnected")]

/-- Body of the catch-all 404 response (source lines 169-172); the message
embeds `req.originalUrl`. -/
def notFoundBody (url : String) : List (String × String) :=
  [("status", "error"), ("message", "API route " ++ url ++ " not found")]

/-- The static route table (source lines 135-165): the mount point of each
of the 31 external route groups, in registration order. -/
def routeTable : List String :=
  ["/api/auth", "/api/users", "/api/patients", "/api/doctors",
   "/api/surgeons", "/api/nurses", "/api/departments", "/api/appointments",
   "/api/visits", "/api/wards", "/api/beds", "/api/ipd-records",
   "/api/dashboard", "/api/lab-tests", "/api/radiology", "/api/theatres",
   "/api/theatre-procedures", "/api/prescriptions", "/api/medicines",
   "/api/billing", "/api/services", "/api/stock", "/api/dispensing",
   "/api/direct-dispensing", "/api/requisitions", "/api/item-pricing",
   "/api/item-receiving", "/api/incoming-items", "/api/corpses",
   "/api/cabinets", "/api/releases"]

/-- Whether string `a` begins string `b` (on the character lists). -/
def strPrefixOf (a b : String) : Bool := a.toList.isPrefixOf b.toList

/-- Whether a request path falls under an `app.use(mount, router)` mount
point: the path is the mount itself or continues it after a slash. -/
def mountMatches (mount path : String) : Bool :=
  path == mount || strPrefixOf (mount ++ "/") path

/-- The gateway pipeline for one request, stage for stage in registration
order (source lines 80-176):
1. CORS (lines 80-90).  Modelled from the spec for the `cors` package: a
   request with method OPTIONS is answered immediately with the configured
   success status 200 (`optionsSuccessStatus`, line 86) and no body,
   terminating the pipeline before any later stage.
2. helmet, body parsers, sanitizers, compression (lines 93-106): identity
   on the parts of the request this development models; the
   parameter-pollution guard `hpp()` (line 105) rewrites the parsed query
   via `hppLast`.
3. The connection-gate middleware (lines 109-121) awaits
   `connectToDatabase`; on rejection it answers 500 with
   `gateFailureBody` and no route handler runs.
4. The inline `/api/health` endpoint (lines 124-132), registered with
   `app.get`.  Express's router serves a HEAD request with the GET handler
   when no HEAD route is registered (the HEAD-to-GET fallback of
   `Route._handles_method`, framework behaviour outside the repository
   source), so the handler answers both GET and HEAD; for HEAD the
   transport omits the response body while the handler runs identically.
5. The route table (lines 135-165): first matching mount wins
   (`app.use` mounts are method-agnostic).
6. The `/api/*` catch-all 404 (lines 168-173) for any remaining path that
   begins with `/api/`. -/
def handleRequest (req : Request) (w : World) : PipelineResult :=
  if req.method = "OPTIONS" then
    { outcome := Outcome.preflight { status := 200, body := [] }
      conn := w.conn
      attempts := 0
      gateRan := false
      processedQuery := req.query }
  else
    let q := hppLast req.query
    let c := connectToDatabase w.connectOutcome w.conn
    match c.result with
    | Except.error e =>
        { outcome := Outcome.gateFailure
            { status := 500, body := gateFailureBody w.nodeEnv e }
          conn := c.state
          attempts := c.attempts
          gateRan := true
          processedQuery := q }
    | Except.ok _ =>
        if (req.method = "GET" ∨ req.method = "HEAD") ∧
            req.path = "/api/health" then
          { outcome := Outcome.health
              { status := 200
                body := healthBody w.nodeEnv w.now c.state.readyState }
            conn := c.state
            attempts := c.attempts
            gateRan := true
            processedQuery := q }
        else
          match routeTable.find? (fun mount => mountMatches mount req.path) with
          | some mount =>
              { outcome := Outcome.delegated mount
                conn := c.state
                attempts := c.attempts
                gateRan := true
                processedQuery := q }
          | none =>
              if strPrefixOf "/api/" req.path then
                { outcome := Outcome.notFound
                    { status := 404, body := notFoundBody (originalUrl req) }
                  conn := c.state
                  attempts := c.attempts
                  gateRan := true
                  processedQuery := q }
              else
                { outcome := Outcome.unhandled
                  conn := c.state
                  attempts := c.attempts
                  gateRan := true
                  processedQuery := q }

/-- A concrete clock reading used by the witnesses. -/
def sampleDate : JsDate := ⟨2026, 10, 11, 12, 30, 45, 7⟩

/-- Cold-start world whose connection attempt would succeed. -/
def worldCold : World := ⟨none, ⟨none, 0⟩, ConnectOutcome.success 5, sampleDate⟩

/-- Cold-start world in development mode whose connection attempt fails. -/
def worldDownDev : World :=
  ⟨some "development", ⟨none, 0⟩, ConnectOutcome.failure "ECONNREFUSED",
   sampleDate⟩

theorem readyState_one_of_ok (o : ConnectOutcome) (s : ConnState) (db : Nat)
    (h : (connectToDatabase o s).result = Except.ok db) :
    (connectToDatabase o s).state.readyState = 1 := by
  by_cases hc : s.cachedDb.isSome ∧ s.readyState = 1
  · simp only [connectToDatabase, if_pos hc]
    exact hc.2
  · simp only [connectToDatabase, if_neg hc] at h ⊢
    cases o with
    | success d => rfl
    | failure m => exact absurd h (by simp)

theorem handleRequest_gateFailure (req : Request) (w : World) (m : String)
    (hm : ¬ req.method = "OPTIONS")
    (hf : (connectToDatabase w.connectOutcome w.conn).result = Except.error m) :
    handleRequest req w =
      { outcome := Outcome.gateFailure
          { status := 500, body := gateFailureBody w.nodeEnv m }
        conn := (connectToDatabase w.connectOutcome w.conn).state
        attempts := (connectToDatabase w.connectOutcome w.conn).attempts
        gateRan := true
        processedQuery := hppLast req.query } := by
  simp [handleRequest, hm, hf]

/-- Claim C1: for every non-preflight request — the health check included —
the connection-gate middleware runs `connectToDatabase` before any route
handler; when the connection attempt throws, the pipeline short-circuits
with status 500 and the body `status: error`, `message: Database connection
failed`, carrying the raw error detail exactly when `NODE_ENV` is
`development`, and neither the health handler nor any mounted route group
is reached. -/
theorem gate_short_circuits_on_connection_failure
    (req : Request) (w : World) (m : String)
    (hm : req.method ≠ "OPTIONS")
    (hf : (connectToDatabase w.connectOutcome w.conn).result = Except.error m) :
    (handleRequest req w).gateRan = true ∧
    (handleRequest req w).outcome =
      Outcome.gateFailure { status := 500, body := gateFailureBody w.nodeEnv m } ∧
    getField (gateFailureBody w.nodeEnv m) "status" = some "error" ∧
    getField (gateFailureBody w.nodeEnv m) "message" =
      some "Database connection failed" ∧
    getField (gateFailureBody w.nodeEnv m) "error" =
      (if w.nodeEnv = some "development" then some m else none) ∧
    (∀ resp, (handleRequest req w).outcome ≠ Outcome.health resp) ∧
    (∀ mount, (handleRequest req w).outcome ≠ Outcome.delegated mount) ∧
    (∀ (req2 : Request) (w2 : World), req2.method ≠ "OPTIONS" →
      (handleRequest req2 w2).gateRan = true) := by
  have hr := handleRequest_gateFailure req w m hm hf
  refine ⟨by rw [hr], by rw [hr], by simp [gateFailureBody, getField],
    by simp [gateFailureBody, getField], ?_, ?_, ?_, ?_⟩
  · by_cases hdev : w.nodeEnv = some "development" <;>
      simp [gateFailureBody, getField, hdev]
  · intro resp
    rw [hr]
    simp
  · intro mount
    rw [hr]
    simp
  · intro req2 w2 hm2
    by_cases h2 : (connectToDatabase w2.connectOutcome w2.conn).result
        matches Except.error _
    · obtain ⟨e, he⟩ : ∃ e,
          (connectToDatabase w2.connectOutcome w2.conn).result =
            Except.error e := by
        cases hres : (connectToDatabase w2.connectOutcome w2.conn).result with
        | error e => exact ⟨e, rfl⟩
        | ok v => rw [hres] at h2; simp at h2
      rw [handleRequest_gateFailure req2 w2 e hm2 he]
    · obtain ⟨v, hv⟩ : ∃ v,
          (connectToDatabase w2.connectOutcome w2.conn).result =
            Except.ok v := by
        cases hres : (connectToDatabase w2.connectOutcome w2.conn).result with
        | error e => rw [hres] at h2; simp at h2
        | ok v => exact ⟨v, rfl⟩
      simp only [handleRequest, if_neg hm2, hv]
      split
      · rfl
      · split
        · rfl
        · split <;> rfl

/-- Witness for C1: GET /api/health on a failing development-mode world. -/
theorem gate_short_circuits_on_connection_failure_witness :
    (handleRequest ⟨"GET", "/api/health", "", []⟩ worldDownDev).outcome =
      Outcome.gateFailure
        { status := 500
          body := [("status", "error"),
                   ("message", "Database connection failed"),
                   ("error", "ECONNREFUSED")] } := by
  have h := gate_short_circuits_on_connection_failure
    ⟨"GET", "/api/health", "", []⟩ worldDownDev "ECONNREFUSED"
    (by decide) rfl
  rw [h.2.1]
  rfl

/-- Claim C5: a request with method OPTIONS is answered immediately with the
configured success status 200 and an empty body; the connection gate never
runs, no connection attempt is made, the connection state is untouched, and
no route group is reached. -/
theorem options_preflight_short_circuit (req : Request) (w : World)
    (h : req.method = "OPTIONS") :
    handleRequest req w =
      { outcome := Outcome.preflight { status := 200, body := [] }
        conn := w.conn
        attempts := 0
        gateRan := false
        processedQuery := req.query } ∧
    (handleRequest req w).gateRan = false ∧
    (handleRequest req w).attempts = 0 ∧
    (∀ mount, (handleRequest req w).outcome ≠ Outcome.delegated mount) := by
  have he : handleRequest req w =
      { outcome := Outcome.preflight { status := 200, body := [] }
        conn := w.conn
        attempts := 0
        gateRan := false
        processedQuery := req.query } := by
    simp [handleRequest, h]
  exact ⟨he, by rw [he], by rw [he], fun mount => by rw [he]; simp⟩

/-- Witness for C5 on a concrete preflight request. -/
theorem options_preflight_short_circuit_witness :
    handleRequest ⟨"OPTIONS", "/api/patients", "", []⟩ worldDownDev =
      { outcome := Outcome.preflight { status := 200, body := [] }
        conn := worldDownDev.conn
        attempts := 0
        gateRan := false
        processedQuery := [] } :=
  (options_preflight_short_circuit ⟨"OPTIONS", "/api/patients", "", []⟩
    worldDownDev rfl).1

theorem handleRequest_health (req : Request) (w : World) (db : Nat)
    (hm : req.method = "GET" ∨ req.method = "HEAD")
    (hp : req.path = "/api/health")
    (hok : (connectToDatabase w.connectOutcome w.conn).result = Except.ok db) :
    handleRequest req w =
      { outcome := Outcome.health
          { status := 200, body := healthBody w.nodeEnv w.now 1 }
        conn := (connectToDatabase w.connectOutcome w.conn).state
        attempts := (connectToDatabase w.connectOutcome w.conn).attempts
        gateRan := true
        processedQuery := hppLast req.query } := by
  have h1 := readyState_one_of_ok w.connectOutcome w.conn db hok
  have hm2 : ¬ req.method = "OPTIONS" := by
    rcases hm with h | h <;> rw [h] <;> simp
  rcases hm with h | h <;> simp [handleRequest, hm2, hok, h, hp, h1]

/-- Claim C2 (amended): a GET /api/health request that passes the connection
gate is answered with status 200 and a body holding `status: success`, the
fixed message, an ISO-8601 timestamp, the environment field, and the
store-status field — named `mongoStatus` in the code (the spec calls it
`backingStoreStatus`) — whose value is `connected` exactly when the
connection state is Connected (`readyState = 1`) and `disconnected`
otherwise. -/
theorem health_endpoint_payload
    (req : Request) (w : World) (db : Nat)
    (hm : req.method = "GET") (hp : req.path = "/api/health")
    (hok : (connectToDatabase w.connectOutcome w.conn).result = Except.ok db) :
    (handleRequest req w).outcome =
      Outcome.health { status := 200, body := healthBody w.nodeEnv w.now 1 } ∧
    getField (healthBody w.nodeEnv w.now 1) "status" = some "success" ∧
    getField (healthBody w.nodeEnv w.now 1) "message" =
      some "Hospital Management API is running" ∧
    getField (healthBody w.nodeEnv w.now 1) "timestamp" =
      some (toISOString w.now) ∧
    isISO8601UTC (toISOString w.now) = true ∧
    getField (healthBody w.nodeEnv w.now 1) "environment" =
      some (w.nodeEnv.getD "production") ∧
    (∀ rs : Nat, getField (healthBody w.nodeEnv w.now rs) "mongoStatus" =
      some (if rs = 1 then "connected" else "disconnected")) := by
  refine ⟨by rw [handleRequest_health req w db (Or.inl hm) hp hok],
    by simp [healthBody, getField],
    by simp [healthBody, getField],
    by simp [healthBody, getField],
    isISO8601UTC_toISOString w.now,
    by simp [healthBody, getField],
    fun rs => by simp [healthBody, getField]⟩

/-- C2 counterexample: the health payload produced by the code carries no
field named `backingStoreStatus`; its store-status field is named
`mongoStatus`. -/
theorem health_payload_has_no_backingStoreStatus_field :
    (handleRequest ⟨"GET", "/api/health", "", []⟩ worldCold).outcome =
      Outcome.health { status := 200, body := healthBody none sampleDate 1 } ∧
    getField (healthBody none sampleDate 1) "backingStoreStatus" = none ∧
    getField (healthBody none sampleDate 1) "mongoStatus" =
      some "connected" := by
  exact ⟨by decide, by decide, by decide⟩

/-- Witness for amended C2 at a concrete healthy request. -/
theorem health_endpoint_payload_witness :
    (handleRequest ⟨"GET", "/api/health", "", []⟩ worldCold).outcome =
      Outcome.health { status := 200, body := healthBody none sampleDate 1 } ∧
    isISO8601UTC (toISOString sampleDate) = true :=
  have h := health_endpoint_payload ⟨"GET", "/api/health", "", []⟩ worldCold 5
    rfl rfl rfl
  ⟨h.1, h.2.2.2.2.1⟩

theorem handleRequest_notFound (req : Request) (w : World) (db : Nat)
    (hm : ¬ req.method = "OPTIONS")
    (hok : (connectToDatabase w.connectOutcome w.conn).result = Except.ok db)
    (hh : ¬ ((req.method = "GET" ∨ req.method = "HEAD") ∧
      req.path = "/api/health"))
    (hfind : routeTable.find? (fun mount => mountMatches mount req.path) = none)
    (hp : strPrefixOf "/api/" req.path = true) :
    handleRequest req w =
      { outcome := Outcome.notFound
          { status := 404, body := notFoundBody (originalUrl req) }
        conn := (connectToDatabase w.connectOutcome w.conn).state
        attempts := (connectToDatabase w.connectOutcome w.conn).attempts
        gateRan := true
        processedQuery := hppLast req.query } := by
  simp [handleRequest, hm, hok, hh, hfind, hp]

/-- Claim C6 (amended): a gated request under `/api/` that matches neither
the health route (which serves GET and, through Express's HEAD-to-GET
fallback, HEAD) nor any route-table mount is answered 404 with
`status: error` and the message `API route <url> not found`, where `<url>`
is the request's original URL — the path followed by the query string —
which equals the literal request path whenever the query string is
empty. -/
theorem unmatched_api_route_404
    (req : Request) (w : World) (db : Nat)
    (hm : req.method ≠ "OPTIONS")
    (hok : (connectToDatabase w.connectOutcome w.conn).result = Except.ok db)
    (hh : ¬ ((req.method = "GET" ∨ req.method = "HEAD") ∧
      req.path = "/api/health"))
    (hr : ∀ mount ∈ routeTable, mountMatches mount req.path = false)
    (hp : strPrefixOf "/api/" req.path = true) :
    (handleRequest req w).outcome =
      Outcome.notFound
        { status := 404, body := notFoundBody (originalUrl req) } ∧
    notFoundBody (originalUrl req) =
      [("status", "error"),
       ("message", "API route " ++ originalUrl req ++ " not found")] ∧
    (req.search = "" → originalUrl req = req.path) := by
  have hfind :
      routeTable.find? (fun mount => mountMatches mount req.path) = none :=
    List.find?_eq_none.mpr (fun x hx => by simp [hr x hx])
  refine ⟨by rw [handleRequest_notFound req w db hm hok hh hfind hp], rfl, ?_⟩
  intro hs
  simp [originalUrl, hs]

/-- C6 counterexample: with a query string present, the 404 message embeds
the full original URL rather than the bare request path the claim
states. -/
theorem notFound_message_embeds_query_string :
    (handleRequest ⟨"GET", "/api/nope", "?x=1", [("x", "1")]⟩
        worldCold).outcome =
      Outcome.notFound
        { status := 404
          body := [("status", "error"),
                   ("message", "API route /api/nope?x=1 not found")] } ∧
    ("API route /api/nope?x=1 not found" : String) ≠
      "API route /api/nope not found" := by
  exact ⟨by decide, by decide⟩

/-- Witness for amended C6 at a concrete unmatched path with no query
string. -/
theorem unmatched_api_route_404_witness :
    (handleRequest ⟨"DELETE", "/api/unknown", "", []⟩ worldCold).outcome =
      Outcome.notFound
        { status := 404
          body := notFoundBody (originalUrl ⟨"DELETE", "/api/unknown", "", []⟩) } ∧
    originalUrl ⟨"DELETE", "/api/unknown", "", []⟩ = "/api/unknown" :=
  have h := unmatched_api_route_404 ⟨"DELETE", "/api/unknown", "", []⟩
    worldCold 5 (by decide) rfl (by decide) (by decide) (by decide)
  ⟨h.1, h.2.2 rfl⟩

/-- C9 counterexample: Express's router serves HEAD requests with the GET
handler (HEAD-to-GET fallback), so HEAD /api/health — a method other than
GET and other than OPTIONS — is answered by the health handler with the
health payload, not the 404 not-found envelope the claim states. -/
theorem head_health_request_gets_health_payload :
    (handleRequest ⟨"HEAD", "/api/health", "", []⟩ worldCold).outcome =
      Outcome.health { status := 200, body := healthBody none sampleDate 1 } ∧
    Outcome.health { status := 200, body := healthBody none sampleDate 1 } ≠
      Outcome.notFound
        { status := 404, body := notFoundBody "/api/health" } := by
  exact ⟨by decide, by decide⟩

/-- Claim C9 (amended): the health route is registered with `app.get`,
which Express serves for GET and — through the HEAD-to-GET fallback — for
HEAD; any request to /api/health whose method is none of GET, HEAD and
OPTIONS matches no route and falls through to the catch-all, yielding the
404 not-found envelope rather than the health payload. -/
theorem health_route_not_served_for_other_methods
    (req : Request) (w : World) (db : Nat)
    (hm : req.method ≠ "GET") (hhd : req.method ≠ "HEAD")
    (ho : req.method ≠ "OPTIONS")
    (hp : req.path = "/api/health")
    (hok : (connectToDatabase w.connectOutcome w.conn).result = Except.ok db) :
    (handleRequest req w).outcome =
      Outcome.notFound
        { status := 404, body := notFoundBody (originalUrl req) } ∧
    (∀ resp, (handleRequest req w).outcome ≠ Outcome.health resp) := by
  have hh : ¬ ((req.method = "GET" ∨ req.method = "HEAD") ∧
      req.path = "/api/health") :=
    fun hand => hand.1.elim hm hhd
  have hfind :
      routeTable.find? (fun mount => mountMatches mount req.path) = none := by
    rw [hp]; decide
  have hpre : strPrefixOf "/api/" req.path = true := by rw [hp]; decide
  have h := handleRequest_notFound req w db ho hok hh hfind hpre
  exact ⟨by rw [h], fun resp => by rw [h]; simp⟩

/-- Witness for amended C9: POST /api/health on a healthy world. -/
theorem health_route_not_served_for_other_methods_witness :
    (handleRequest ⟨"POST", "/api/health", "", []⟩ worldCold).outcome =
      Outcome.notFound
        { status := 404
          body := notFoundBody (originalUrl ⟨"POST", "/api/health", "", []⟩) } :=
  (health_route_not_served_for_other_methods ⟨"POST", "/api/health", "", []⟩
    worldCold 5 (by decide) (by decide) (by decide) rfl rfl).1

/-- Claim C10: with NODE_ENV unset the health payload's environment field
defaults to the string `production`, and the connection-gate failure
envelope omits the raw error detail field (only the exact value
`development` enables it). -/
theorem unset_node_env_defaults
    (req : Request) (w : World) (db : Nat) (m : String)
    (henv : w.nodeEnv = none)
    (hm : req.method = "GET") (hp : req.path = "/api/health")
    (hok : (connectToDatabase w.connectOutcome w.conn).result = Except.ok db) :
    (handleRequest req w).outcome =
      Outcome.health { status := 200, body := healthBody none w.now 1 } ∧
    getField (healthBody none w.now 1) "environment" = some "production" ∧
    getField (gateFailureBody none m) "error" = none := by
  refine ⟨?_, by simp [healthBody, getField],
    by simp [gateFailureBody, getField]⟩
  rw [handleRequest_health req w db (Or.inl hm) hp hok, henv]

/-- Witness for C10 at a concrete request with NODE_ENV unset. -/
theorem unset_node_env_defaults_witness :
    (handleRequest ⟨"GET", "/api/health", "", []⟩ worldCold).outcome =
      Outcome.health { status := 200, body := healthBody none sampleDate 1 } ∧
    getField (gateFailureBody none "ECONNREFUSED") "error" = none :=
  have h := unset_node_env_defaults ⟨"GET", "/api/health", "", []⟩ worldCold 5
    "ECONNREFUSED" rfl rfl rfl rfl
  ⟨h.1, h.2.2⟩
